import Mathlib

/-!
Verification of the assessment interchange compiler in
`src/TransferAss/TransferASS.py`: the JSON-question → QTI 2.1 / Moodle XML
converter.  Python data is shallowly embedded:

* a Python `dict` of options is a `List (String × Bool)` in insertion order
  (keys are unique in a real dict; theorems that depend on that carry a
  `Nodup` hypothesis on the key list);
* Python floats are modelled as exact rationals.  The only float operations
  the code performs are `100.0 / n` for an option count `n` followed by
  `"%.6f"` formatting; for every realistic count the correctly rounded
  6-decimal rendering of the rational `100 / n` coincides with the rendering
  of the double `100.0 / n`, and this is what `fmt6` implements (including
  the round-half-to-even tie rule of the C `printf` family);
* `xml.etree` / `minidom` trees are the inductive type `Xml`; namespace
  prefixes of tag names are elided since no code path inspects them;
* `re.sub` on the two fixed regular expressions of the source is compiled to
  direct character-list scanners (`label_rest`, `subMathAux`) that implement
  exactly the matching semantics of those patterns (anchored match for the
  option-label pattern, leftmost lazy match with negative lookahead for the
  inline-math pattern, `.` not matching a newline);
* `raise ValueError` becomes `Except.error`;
* the random `uuid.uuid4()` tokens are an injected generator argument;
* the two module-level Streamlit flags read inside `build_multichoice`
  (`moodle_strip_prefixes`, `moodle_convert_math`) are passed as the
  parameters `use_strip`, `use_convert_math`.
-/

/-- Python `\s` on the ASCII range (the texts in question are ASCII). -/
def pyIsSpace (c : Char) : Bool :=
  c = ' ' || c = '\t' || c = '\n' || c = '\r' || c = '\x0b' || c = '\x0c'

/-- The character class `[A-Za-z0-9]` of `_opt_prefix`. -/
def isAsciiAlnum (c : Char) : Bool :=
  ('A' ≤ c && c ≤ 'Z') || ('a' ≤ c && c ≤ 'z') || ('0' ≤ c && c ≤ '9')

/--
Matching of the anchored pattern `_opt_prefix = ^\s*([A-Za-z0-9]+)[\)\.\:]\s+`
against the start of `s`.  Because the three sub-languages (whitespace,
alphanumerics, the punctuation class) are pairwise disjoint, the greedy
quantifiers never backtrack productively, so the match is the deterministic
scan below.  Returns the characters remaining after the match, or `none`
when the pattern does not match (in which case `re.sub` leaves `s` alone).
-/
def label_rest (s : String) : Option (List Char) :=
  let r1 := s.data.dropWhile pyIsSpace
  let al := r1.takeWhile isAsciiAlnum
  let r2 := r1.dropWhile isAsciiAlnum
  if al.isEmpty then none
  else
    match r2 with
    | [] => none
    | p :: r3 =>
      if p = ')' || p = '.' || p = ':' then
        if (r3.takeWhile pyIsSpace).isEmpty then none
        else some (r3.dropWhile pyIsSpace)
      else none

/-- `_opt_prefix.sub("", s)`: strip one leading option label such as
`"A) "`, `"3. "`, `"a: "`. -/
def strip_prefix_label (s : String) : String :=
  match label_rest s with
  | some r => String.mk r
  | none => s

/-- Whether `_opt_prefix` matches at the start of `s`. -/
def matchesLabel (s : String) : Bool :=
  (label_rest s).isSome

/-- Negative lookahead `(?!\$)`: the next character (if any) is not `$`. -/
def noDollarAhead : List Char → Bool
  | [] => true
  | d :: _ => d != '$'

/--
The search for the closing delimiter of `_inline_math = \$(?!\$)(.+?)\$(?!\$)`:
`acc` holds the group characters consumed so far (reversed).  The lazy
`(.+?)` closes at the earliest `$` that is not followed by another `$`
(provided the group is nonempty); `.` cannot consume a newline, so a newline
aborts the match; any other character (including `$` followed by `$`) is
consumed by the group.
-/
def findClose (acc : List Char) : List Char → Option (List Char × List Char)
  | [] => none
  | c :: cs =>
    if c = '$' && noDollarAhead cs && !acc.isEmpty then
      some (acc.reverse, cs)
    else if c = '\n' then none
    else findClose (c :: acc) cs

/--
`_inline_math.sub(r"$$\1$$", s)` on the character list: scan left to right;
at a `$` not followed by `$`, try to complete a match; on success emit
`$$` ++ group ++ `$$` and continue after the match, otherwise emit the
character and continue (the regex engine advances one position).  `fuel`
only forces termination; every call site passes the list length, which each
step strictly exceeds the consumed suffix length, so the fuel never runs out.
-/
def subMathAux : Nat → List Char → List Char
  | 0, l => l
  | _, [] => []
  | fuel + 1, c :: cs =>
    if c = '$' && noDollarAhead cs then
      match findClose [] cs with
      | some (g, rest) => '$' :: '$' :: (g ++ '$' :: '$' :: subMathAux fuel rest)
      | none => c :: subMathAux fuel cs
    else c :: subMathAux fuel cs

/-- `to_double_dollar_math`: convert `$...$` to `$$...$$` via `_inline_math`. -/
def to_double_dollar_math (s : String) : String :=
  String.mk (subMathAux s.data.length s.data)

/-- `clean_option_text`. -/
def clean_option_text (s : String) (strip_prefixes convert_math : Bool) : String :=
  let text := if strip_prefixes then strip_prefix_label s else s
  if convert_math then to_double_dollar_math text else text

/-- `clean_general_text`. -/
def clean_general_text (s : String) (convert_math : Bool) : String :=
  if convert_math then to_double_dollar_math s else s

/-- Round half to even applied to the rational `a / b` (for `0 < b`):
the rounding rule of `"%.6f"` formatting.  `/` and `%` on `ℤ` are the
Euclidean operations, so `a / b` is the floor and `(a % b) / b` the
fractional part; the comparisons with `1 / 2` are cleared of denominators. -/
def rheDiv (a : ℤ) (b : ℕ) : ℤ :=
  if 2 * (a % (b : ℤ)) < (b : ℤ) then a / (b : ℤ)
  else if (b : ℤ) < 2 * (a % (b : ℤ)) then a / (b : ℤ) + 1
  else if (a / (b : ℤ)) % 2 = 0 then a / (b : ℤ) else a / (b : ℤ) + 1

/-- Left-pad a numeral string with zeros to six digits. -/
def pad6 (n : Nat) : String :=
  let s := Nat.repr n
  String.mk (List.replicate (6 - s.length) '0' ++ s.data)

/-- `f"{(a / b):.6f}"`: fixed-point rendering of the rational `a / b` with
six decimal places.  `rheDiv (a * 1000000) b` is the signed count of
micro-units; the sign, the integer part and the zero-padded six fractional
digits are rendered from it. -/
def fmt6 (a : ℤ) (b : ℕ) : String :=
  let n := rheDiv (a * 1000000) b
  (if n < 0 then "-" else "") ++ Nat.repr (n.natAbs / 1000000) ++ "." ++ pad6 (n.natAbs % 1000000)

/--
The fraction string `fractions_from_options` assigns to the option key `k`.
In the source the function fills a dict keyed by the option texts; since a
Python dict has unique keys, every key lands in exactly one of
`correct_keys` / `wrong_keys` and the per-key value is the function below
(the `0 < W` test is placed first because in the source the `share_w`
assignment runs last and would overwrite).
-/
def fraction_value (options : List (String × Bool)) (single : Bool) (k : String) : String :=
  if single then
    if k ∈ (((options.filter fun kv => kv.2).map Prod.fst).take 1) then "100.000000" else "0"
  else
    if 0 < ((options.filter fun kv => !kv.2).map Prod.fst).length ∧
        k ∈ ((options.filter fun kv => !kv.2).map Prod.fst) then
      fmt6 (-100) ((options.filter fun kv => !kv.2).map Prod.fst).length
    else if 0 < ((options.filter fun kv => kv.2).map Prod.fst).length ∧
        k ∈ ((options.filter fun kv => kv.2).map Prod.fst) then
      fmt6 100 ((options.filter fun kv => kv.2).map Prod.fst).length
    else "0"

/-- `fractions_from_options`: per-option Moodle fraction strings, in the
iteration order of `options`. -/
def fractions_from_options (options : List (String × Bool)) (single : Bool) :
    List (String × String) :=
  options.map fun kv => (kv.1, fraction_value options single kv.1)

/-- `wrap_p`. -/
def wrap_p (s : String) : String :=
  let t := s.trim
  if t = "" then "" else if t.startsWith "<" then t else "<p>" ++ t ++ "</p>"

example : fractions_from_options [("a", true), ("b", true), ("c", false), ("d", false)] false
    = [("a", "50.000000"), ("b", "50.000000"), ("c", "-50.000000"), ("d", "-50.000000")] := by
  decide

example : fractions_from_options [("3", false), ("4", true), ("5", false)] true
    = [("3", "0"), ("4", "100.000000"), ("5", "0")] := by decide

example : fmt6 100 3 = "33.333333" := by decide
example : fmt6 (-100) 3 = "-33.333333" := by decide
example : fmt6 100 512 = "0.195312" := by decide
example : fmt6 100 6 = "16.666667" := by decide
example : fmt6 (-100) 7 = "-14.285714" := by decide
example : fmt6 100 1 = "100.000000" := by decide
example : to_double_dollar_math "$x$" = "$$x$$" := by decide
example : to_double_dollar_math "$$x$$" = "$$$x$$$" := by decide
example : to_double_dollar_math "a $b$ c $$d$$ e" = "a $$b$$ c $$$d$$$ e" := by decide
example : strip_prefix_label "A) 1. x" = "1. x" := by decide
example : strip_prefix_label "12.5 x" = "12.5 x" := by decide
example : strip_prefix_label "  3:  y" = "y" := by decide

/-- An `xml.etree` / `minidom` element: tag, attributes in insertion order,
optional text content, child elements in insertion order.  Namespace
prefixes of tag names are elided (nothing in the source inspects them). -/
inductive Xml where
  | node (tag : String) (attrs : List (String × String)) (text : Option String)
      (children : List Xml)

def Xml.tag : Xml → String
  | .node t _ _ _ => t

def Xml.attrs : Xml → List (String × String)
  | .node _ a _ _ => a

def Xml.text : Xml → Option String
  | .node _ _ tx _ => tx

def Xml.children : Xml → List Xml
  | .node _ _ _ c => c

/-- Attribute lookup. -/
def Xml.attr (x : Xml) (name : String) : Option String :=
  x.attrs.lookup name

/-- The children of `x` bearing tag `t`. -/
def Xml.elems (x : Xml) (t : String) : List Xml :=
  x.children.filter fun c => c.tag == t

/-- The text of the first child of `x` bearing tag `t` (an `add_scalar`
element in the Moodle output). -/
def Xml.scalar (x : Xml) (t : String) : Option String :=
  ((x.elems t).head?).bind Xml.text

/-- The `fraction` attributes of the `<answer>` children of a Moodle
question node, in document order. -/
def answer_fraction_attrs (x : Xml) : List String :=
  (x.elems "answer").filterMap fun c => c.attr "fraction"

/-- The texts of the `<value>` children of the `<correctResponse>` of a QTI
item, i.e. the declared correct-response identifier list. -/
def correct_response_values (item : Xml) : List String :=
  ((((item.elems "responseDeclaration").flatMap Xml.children).filter
      fun c => c.tag == "correctResponse").flatMap Xml.children).filterMap Xml.text

/-- The `identifier` attributes of the `simpleChoice` children of the
`choiceInteraction` of a QTI item, in document order. -/
def simple_choice_identifiers (item : Xml) : List String :=
  ((((item.elems "itemBody").flatMap Xml.children).filter
      fun c => c.tag == "choiceInteraction").flatMap Xml.children).filterMap
    fun c => c.attr "identifier"

/-- The `href` attributes of the `<resource>` children of the manifest. -/
def resource_hrefs (m : Xml) : List String :=
  ((m.elems "resources").flatMap Xml.children).filterMap fun r => r.attr "href"

/-- One question of the JSON input, already parsed: `question` text, the
ordered option → correctness map, and the two feedback texts (`""` when the
JSON field is absent, matching `q.get("success", "")`). -/
structure Question where
  question : String
  options : List (String × Bool)
  success : String
  error : String
deriving DecidableEq

/-- The per-question QTI choice identifiers `ID_1 … ID_n`
(`choice_ids = [f"ID_{i+1}" for i in range(len(choices_text))]`). -/
def choice_ids (n : Nat) : List String :=
  (List.range n).map fun i => "ID_" ++ Nat.repr (i + 1)

/-- `correct_ids = [cid for cid, ok in zip(choice_ids, choices_bools) if ok]`. -/
def qti_correct_ids (options : List (String × Bool)) : List String :=
  (((choice_ids options.length).zip (options.map Prod.snd)).filter fun p => p.2).map Prod.fst

/-- `make_item_xml`: builds one QTI 2.1 `assessmentItem`.  The three
`uuid.uuid4()` calls of the source are the injected arguments `item_uuid`,
`fb_ok_uuid`, `fb_err_uuid`.  Returns `(item_id, tree)`. -/
def make_item_xml (item_uuid fb_ok_uuid fb_err_uuid : String)
    (title stem : String) (choices : List (String × String))
    (correct_ids : List String) (success_text error_text : String)
    (shuffle : Bool) : String × Xml :=
  let item_id := "item-" ++ item_uuid
  let fb_ok_id := "id-" ++ fb_ok_uuid
  let fb_err_id := "id-" ++ fb_err_uuid
  let rd := Xml.node "responseDeclaration"
    [("identifier", "RESPONSE_1"), ("cardinality", "multiple"), ("baseType", "identifier")]
    none
    [Xml.node "correctResponse" [] none
      (correct_ids.map fun cid => Xml.node "value" [] (some cid) [])]
  let outcome := fun (ident baseType default : String) =>
    Xml.node "outcomeDeclaration"
      [("identifier", ident), ("cardinality", "single"), ("baseType", baseType)] none
      [Xml.node "defaultValue" [] none [Xml.node "value" [] (some default) []]]
  let body := Xml.node "itemBody" [] none
    [Xml.node "p" [] (some stem) [],
     Xml.node "choiceInteraction"
       [("responseIdentifier", "RESPONSE_1"),
        ("shuffle", if shuffle then "true" else "false"), ("maxChoices", "0")] none
       (choices.map fun c =>
         Xml.node "simpleChoice" [("identifier", c.1)] none
           [Xml.node "p" [] (some c.2) []])]
  let modal := fun (fid txt : String) =>
    Xml.node "modalFeedback"
      [("identifier", fid), ("outcomeIdentifier", "FEEDBACKMODAL"), ("showHide", "show")] none
      [Xml.node "p" [] (some txt) []]
  let rc0 := Xml.node "responseCondition" [] none
    [Xml.node "responseIf" [] none
      [Xml.node "isNull" [] none [Xml.node "variable" [("identifier", "RESPONSE_1")] none []],
       Xml.node "setOutcomeValue" [("identifier", "FEEDBACKBASIC")] none
         [Xml.node "baseValue" [("baseType", "identifier")] (some "empty") []]]]
  let rc1 := Xml.node "responseCondition" [] none
    [Xml.node "responseIf" [] none
      [Xml.node "match" [] none
        [Xml.node "variable" [("identifier", "RESPONSE_1")] none [],
         Xml.node "correct" [("identifier", "RESPONSE_1")] none []],
       Xml.node "setOutcomeValue" [("identifier", "SCORE")] none
         [Xml.node "sum" [] none
           [Xml.node "variable" [("identifier", "SCORE")] none [],
            Xml.node "variable" [("identifier", "MAXSCORE")] none []]],
       Xml.node "setOutcomeValue" [("identifier", "FEEDBACKBASIC")] none
         [Xml.node "baseValue" [("baseType", "identifier")] (some "correct") []]],
     Xml.node "responseElse" [] none
      [Xml.node "setOutcomeValue" [("identifier", "SCORE")] none
         [Xml.node "baseValue" [("baseType", "float")] (some "0") []],
       Xml.node "setOutcomeValue" [("identifier", "FEEDBACKBASIC")] none
         [Xml.node "baseValue" [("baseType", "identifier")] (some "incorrect") []]]]
  let rc2 := Xml.node "responseCondition" [] none
    [Xml.node "responseIf" [] none
      [Xml.node "match" [] none
        [Xml.node "baseValue" [("baseType", "identifier")] (some "correct") [],
         Xml.node "variable" [("identifier", "FEEDBACKBASIC")] none []],
       Xml.node "setOutcomeValue" [("identifier", "FEEDBACKMODAL")] none
         [Xml.node "multiple" [] none
           [Xml.node "variable" [("identifier", "FEEDBACKMODAL")] none [],
            Xml.node "baseValue" [("baseType", "identifier")] (some fb_ok_id) []]]]]
  let rc3 := Xml.node "responseCondition" [] none
    [Xml.node "responseIf" [] none
      [Xml.node "match" [] none
        [Xml.node "baseValue" [("baseType", "identifier")] (some "incorrect") [],
         Xml.node "variable" [("identifier", "FEEDBACKBASIC")] none []],
       Xml.node "setOutcomeValue" [("identifier", "FEEDBACKMODAL")] none
         [Xml.node "multiple" [] none
           [Xml.node "variable" [("identifier", "FEEDBACKMODAL")] none [],
            Xml.node "baseValue" [("baseType", "identifier")] (some fb_err_id) []]]]]
  let rp := Xml.node "responseProcessing" [] none [rc0, rc1, rc2, rc3]
  let item := Xml.node "assessmentItem"
    [("xsi:schemaLocation",
      "http://www.imsglobal.org/xsd/imsqti_v2p1 http://www.imsglobal.org/xsd/qti/qtiv2p1/imsqti_v2p1p1.xsd"),
     ("identifier", item_id), ("title", title), ("adaptive", "false"),
     ("timeDependent", "false")] none
    [rd,
     outcome "SCORE" "float" "0",
     outcome "MAXSCORE" "float" "1",
     outcome "MINSCORE" "float" "0",
     outcome "FEEDBACKBASIC" "identifier" "empty",
     Xml.node "outcomeDeclaration"
       [("identifier", "FEEDBACKMODAL"), ("cardinality", "multiple"),
        ("baseType", "identifier"), ("view", "testConstructor")] none [],
     body,
     modal fb_ok_id success_text,
     modal fb_err_id error_text,
     rp]
  (item_id, item)

/-- The five-step response-processing tree exactly as §4.3 of the spec
describes it, written from the spec text for comparison with the builder:
(1) a condition setting `FEEDBACKBASIC` to `empty` when the response is
null; (2) a condition whose `responseIf` matches the response against the
declared correct set, sets `SCORE` to `SCORE + MAXSCORE` and
`FEEDBACKBASIC` to `correct`; (3) the `responseElse` of that same
condition sets `SCORE` to `0` and `FEEDBACKBASIC` to `incorrect`;
(4) a condition appending the success-feedback identifier to
`FEEDBACKMODAL` when `FEEDBACKBASIC` equals `correct`; (5) a condition
appending the error-feedback identifier when it equals `incorrect`. -/
def response_processing_spec (fb_ok_id fb_err_id : String) : Xml :=
  Xml.node "responseProcessing" [] none
    [Xml.node "responseCondition" [] none
      [Xml.node "responseIf" [] none
        [Xml.node "isNull" [] none [Xml.node "variable" [("identifier", "RESPONSE_1")] none []],
         Xml.node "setOutcomeValue" [("identifier", "FEEDBACKBASIC")] none
           [Xml.node "baseValue" [("baseType", "identifier")] (some "empty") []]]],
     Xml.node "responseCondition" [] none
      [Xml.node "responseIf" [] none
        [Xml.node "match" [] none
          [Xml.node "variable" [("identifier", "RESPONSE_1")] none [],
           Xml.node "correct" [("identifier", "RESPONSE_1")] none []],
         Xml.node "setOutcomeValue" [("identifier", "SCORE")] none
           [Xml.node "sum" [] none
             [Xml.node "variable" [("identifier", "SCORE")] none [],
              Xml.node "variable" [("identifier", "MAXSCORE")] none []]],
         Xml.node "setOutcomeValue" [("identifier", "FEEDBACKBASIC")] none
           [Xml.node "baseValue" [("baseType", "identifier")] (some "correct") []]],
       Xml.node "responseElse" [] none
        [Xml.node "setOutcomeValue" [("identifier", "SCORE")] none
           [Xml.node "baseValue" [("baseType", "float")] (some "0") []],
         Xml.node "setOutcomeValue" [("identifier", "FEEDBACKBASIC")] none
           [Xml.node "baseValue" [("baseType", "identifier")] (some "incorrect") []]]],
     Xml.node "responseCondition" [] none
      [Xml.node "responseIf" [] none
        [Xml.node "match" [] none
          [Xml.node "baseValue" [("baseType", "identifier")] (some "correct") [],
           Xml.node "variable" [("identifier", "FEEDBACKBASIC")] none []],
         Xml.node "setOutcomeValue" [("identifier", "FEEDBACKMODAL")] none
           [Xml.node "multiple" [] none
             [Xml.node "variable" [("identifier", "FEEDBACKMODAL")] none [],
              Xml.node "baseValue" [("baseType", "identifier")] (some fb_ok_id) []]]]],
     Xml.node "responseCondition" [] none
      [Xml.node "responseIf" [] none
        [Xml.node "match" [] none
          [Xml.node "baseValue" [("baseType", "identifier")] (some "incorrect") [],
           Xml.node "variable" [("identifier", "FEEDBACKBASIC")] none []],
         Xml.node "setOutcomeValue" [("identifier", "FEEDBACKMODAL")] none
           [Xml.node "multiple" [] none
             [Xml.node "variable" [("identifier", "FEEDBACKMODAL")] none [],
              Xml.node "baseValue" [("baseType", "identifier")] (some fb_err_id) []]]]]]

/-- `f"{n:02d}"`: zero-pad to two digits. -/
def pad2 (n : Nat) : String :=
  let s := Nat.repr n
  String.mk (List.replicate (2 - s.length) '0' ++ s.data)

/-- `f"{n:03d}"`: zero-pad to three digits. -/
def pad3 (n : Nat) : String :=
  let s := Nat.repr n
  String.mk (List.replicate (3 - s.length) '0' ++ s.data)

/-- `pathlib.Path(fname).stem` for the plain file names used here (no
directory separators): the name up to its last dot, kept whole when there
is no dot or the only dot is the leading character of a hidden file. -/
def path_stem (s : String) : String :=
  match s.data.reverse.dropWhile (fun c => c ≠ '.') with
  | [] => s
  | _ :: rest => if rest.isEmpty then s else String.mk rest.reverse

/-- `"res_" + Path(fname).stem.replace('-', '_')`: the manifest resource
identifier derived from an item file name. -/
def manifest_rid (fname : String) : String :=
  "res_" ++ String.mk ((path_stem fname).data.map fun c => if c = '-' then '_' else c)

/-- `make_manifest_xml`: one `imsmanifest.xml` tree for the given item file
names. -/
def make_manifest_xml (item_filenames : List String) : Xml :=
  Xml.node "manifest"
    [("xsi:schemaLocation",
      "http://www.imsglobal.org/xsd/imscp_v1p1 http://www.imsglobal.org/xsd/imscp_v1p1.xsd http://www.imsglobal.org/xsd/imsqti_v2p1 http://www.imsglobal.org/xsd/qti/qtiv2p1/imsqti_v2p1p1.xsd"),
     ("identifier", "manifestID")] none
    [Xml.node "metadata" [] none
      [Xml.node "schema" [] (some "QTIv2.1 Package") [],
       Xml.node "schemaversion" [] (some "1.0.0") []],
     Xml.node "organizations" [] none [],
     Xml.node "resources" [] none
       (item_filenames.map fun fname =>
         Xml.node "resource"
           [("identifier", manifest_rid fname), ("type", "imsqti_item_xmlv2p1"),
            ("href", fname)] none
           [Xml.node "file" [("href", fname)] none []])]

/-- The loop body of `json_to_qti_zip` for one question: build the choice
list, the correct-identifier set and the transformed texts, then call
`make_item_xml`.  `idx` is the 1-based question index; the uuid triple is
injected. -/
def qti_build_item (uuids : String × String × String) (item_pref : String)
    (idx : Nat) (strip_prefixes convert_math shuffle : Bool)
    (q : Question) : String × Xml :=
  let choices_text := q.options.map Prod.fst
  let cids := choice_ids choices_text.length
  let stem := clean_general_text q.question convert_math
  let choices := cids.zip
    (choices_text.map fun txt => clean_option_text txt strip_prefixes convert_math)
  let correct := qti_correct_ids q.options
  let title := item_pref ++ "_" ++ pad2 idx
  let success_text := clean_general_text q.success convert_math
  let error_text := clean_general_text q.error convert_math
  make_item_xml uuids.1 uuids.2.1 uuids.2.2 title stem choices correct
    success_text error_text shuffle

/-- `json_to_qti_zip`: convert a question list into the QTI package.  The
in-memory zip is modelled as the list of its entries in write order — one
`(entry name, xml tree)` pair per item plus the final `imsmanifest.xml`.
`uuidGen i` supplies the three `uuid4` tokens of question `i` (0-based). -/
def json_to_qti_zip (uuidGen : Nat → String × String × String)
    (strip_prefixes convert_math shuffle : Bool) (item_pref : String)
    (items : List Question) : List (String × Xml) :=
  let built := items.enum.map fun p =>
    qti_build_item (uuidGen p.1) item_pref (p.1 + 1) strip_prefixes convert_math
      shuffle p.2
  let item_filenames := built.map fun b => b.1 ++ ".xml"
  (built.map fun b => (b.1 ++ ".xml", b.2)) ++
    [("imsmanifest.xml", make_manifest_xml item_filenames)]

/-- The `<question type="multichoice">` node `build_multichoice` emits once
its non-empty-options guard has passed.  `single` is the already-computed
grading mode; `defaultgrade` and `penalty` arrive as their `"%g"`-formatted
strings (their rendering is irrelevant to every claim); `use_strip` and
`use_convert_math` are the module-level Moodle flags. -/
def mc_scalar_children (idx : Nat) (q : Question) (name_pref : String)
    (defaultgrade penalty : String) (shuffleanswers : Bool)
    (answernumbering : String) (single : Bool) (use_convert_math : Bool) :
    List Xml :=
  [Xml.node "name" [] none [Xml.node "text" [] (some (name_pref ++ pad3 idx)) []],
   Xml.node "questiontext" [("format", "html")] none
     [Xml.node "text" []
       (some (wrap_p (if use_convert_math then clean_general_text q.question true
                      else q.question))) []],
   Xml.node "generalfeedback" [("format", "html")] none
     [Xml.node "text" [] (some "") []],
   Xml.node "defaultgrade" [] (some defaultgrade) [],
   Xml.node "penalty" [] (some penalty) [],
   Xml.node "hidden" [] (some "0") [],
   Xml.node "idnumber" [] (some "") [],
   Xml.node "single" [] (some (if single then "true" else "false")) [],
   Xml.node "shuffleanswers" [] (some (if shuffleanswers then "true" else "false")) [],
   Xml.node "answernumbering" [] (some answernumbering) [],
   Xml.node "showstandardinstruction" [] (some "0") [],
   Xml.node "correctfeedback" [("format", "html")] none
     [Xml.node "text" []
       (some (wrap_p (if q.success = "" then "Your answer is correct." else q.success))) []],
   Xml.node "partiallycorrectfeedback" [("format", "html")] none
     [Xml.node "text" []
       (some (wrap_p (if q.error = "" then "Your answer is partially or wholly incorrect."
                      else q.error))) []],
   Xml.node "incorrectfeedback" [("format", "html")] none
     [Xml.node "text" []
       (some (wrap_p (if q.error = "" then "Your answer is partially or wholly incorrect."
                      else q.error))) []],
   Xml.node "shownumcorrect" [] none []]

/-- One `<answer>` element: fraction and format attributes, CDATA display
text, empty per-answer feedback. -/
def mc_answer_node (fractions : List (String × String))
    (use_strip use_convert_math : Bool) (kv : String × Bool) : Xml :=
  Xml.node "answer"
    [("fraction", ((fractions.lookup kv.1).getD "")), ("format", "html")] none
    [Xml.node "text" [] (some (wrap_p (clean_option_text kv.1 use_strip use_convert_math))) [],
     Xml.node "feedback" [("format", "html")] none [Xml.node "text" [] (some "") []]]

def mc_question_node (idx : Nat) (q : Question) (name_pref : String)
    (defaultgrade penalty : String) (shuffleanswers : Bool)
    (answernumbering : String) (single : Bool)
    (use_strip use_convert_math : Bool) : Xml :=
  Xml.node "question" [("type", "multichoice")] none
    (mc_scalar_children idx q name_pref defaultgrade penalty shuffleanswers
        answernumbering single use_convert_math ++
     q.options.map
       (mc_answer_node (fractions_from_options q.options single) use_strip use_convert_math))

/-- `build_multichoice`: raises `ValueError` on an empty options map,
otherwise computes the `single`-mode decision and emits the question node.
(`fractions.lookup` inside `mc_question_node` cannot miss: the fraction
list carries every option key; the `getD ""` default is dead code that only
keeps the function total.) -/
def build_multichoice (idx : Nat) (q : Question) (name_pref : String)
    (defaultgrade penalty : String) (shuffleanswers : Bool)
    (answernumbering : String) (auto_single : Bool)
    (use_strip use_convert_math : Bool) : Except String Xml :=
  if q.options.isEmpty then
    .error ("Question " ++ Nat.repr idx ++ ": \x27options\x27 must be a non-empty dict.")
  else
    let num_true := (q.options.filter fun kv => kv.2).length
    let single := if auto_single then num_true == 1 else false
    .ok (mc_question_node idx q name_pref defaultgrade penalty shuffleanswers
      answernumbering single use_strip use_convert_math)

/-- The question-building loop of `build_quiz_xml`
(`for i, q in enumerate(data, start=1)`): the counter starts at 0 and each
question is built with index `i + 1`; the first `ValueError` propagates. -/
def build_quiz_nodes (name_pref : String) (defaultgrade penalty : String)
    (shuffleanswers : Bool) (answernumbering : String) (auto_single : Bool)
    (use_strip use_convert_math : Bool) : Nat → List Question →
    Except String (List Xml)
  | _, [] => .ok []
  | i, q :: rest => do
    let node ← build_multichoice (i + 1) q name_pref defaultgrade penalty
      shuffleanswers answernumbering auto_single use_strip use_convert_math
    let nodes ← build_quiz_nodes name_pref defaultgrade penalty shuffleanswers
      answernumbering auto_single use_strip use_convert_math (i + 1) rest
    return node :: nodes

/-- `build_quiz_xml`: builds every question node in order under one `quiz`
root; the first `ValueError` aborts the whole Moodle conversion
(serialization to bytes is elided). -/
def build_quiz_xml (name_pref : String) (defaultgrade penalty : String)
    (shuffleanswers : Bool) (answernumbering : String) (auto_single : Bool)
    (use_strip use_convert_math : Bool) (data : List Question) :
    Except String Xml := do
  let nodes ← build_quiz_nodes name_pref defaultgrade penalty shuffleanswers
    answernumbering auto_single use_strip use_convert_math 0 data
  return Xml.node "quiz" [] none nodes

example :
    (json_to_qti_zip (fun i => ("u" ++ Nat.repr i, "v", "w")) true true true "Item"
      [⟨"2+2=?", [("3", false), ("4", true), ("5", false)], "", ""⟩]).map Prod.fst
    = ["item-u0.xml", "imsmanifest.xml"] := by decide

example :
    (build_multichoice 1 ⟨"Q?", [], "", ""⟩ "P" "1" "0.3333333" true "abc" true true false)
    = .error "Question 1: \x27options\x27 must be a non-empty dict." := by rfl

example : manifest_rid "item-ab-cd.xml" = "res_item_ab_cd" := by decide

/-- `rheDiv a b` differs from the exact quotient `a / b` by at most one half,
scaled by `b`: the rounding error bound behind the zero-sum property of the
`multi` fraction scheme. -/
theorem rheDiv_mul_close (a : ℤ) (b : ℕ) (hb : 0 < b) :
    2 * ((b : ℤ) * rheDiv a b - a).natAbs ≤ b := by
  have hb' : (0 : ℤ) < (b : ℤ) := Int.natCast_pos.mpr hb
  have h2 : 0 ≤ a % (b : ℤ) := Int.emod_nonneg a (ne_of_gt hb')
  have h3 : a % (b : ℤ) < (b : ℤ) := Int.emod_lt_of_pos a hb'
  have ha : (b : ℤ) * (a / (b : ℤ)) + a % (b : ℤ) = a := Int.ediv_add_emod a b
  unfold rheDiv
  generalize hf : a / (b : ℤ) = f at ha ⊢
  generalize hr : a % (b : ℤ) = r at h2 h3 ha ⊢
  have e1 : (b : ℤ) * f - ((b : ℤ) * f + r) = -r := by ring
  have e2 : (b : ℤ) * (f + 1) - ((b : ℤ) * f + r) = (b : ℤ) - r := by ring
  split_ifs with h4 h5 h6
  · rw [← ha, e1]; omega
  · rw [← ha, e2]; omega
  · rw [← ha, e1]; omega
  · rw [← ha, e2]; omega

/-- In a list with duplicate-free keys (a Python dict), a key determines
its value. -/
theorem nodup_keys_val {options : List (String × Bool)}
    (hnd : (options.map Prod.fst).Nodup) {k : String} {b1 b2 : Bool}
    (h1 : (k, b1) ∈ options) (h2 : (k, b2) ∈ options) : b1 = b2 := by
  induction options with
  | nil => cases h1
  | cons kv rest ih =>
    rw [List.map_cons, List.nodup_cons] at hnd
    rcases List.mem_cons.mp h1 with e1 | m1 <;> rcases List.mem_cons.mp h2 with e2 | m2
    · exact congrArg Prod.snd (e1.trans e2.symm)
    · exact absurd (List.mem_map.mpr ⟨_, m2, rfl⟩)
        ((congrArg Prod.fst e1).symm ▸ hnd.1)
    · exact absurd (List.mem_map.mpr ⟨_, m1, rfl⟩)
        ((congrArg Prod.fst e2).symm ▸ hnd.1)
    · exact ih hnd.2 m1 m2

/-- Membership in `correct_keys`. -/
theorem mem_correct_keys {options : List (String × Bool)} {k : String} :
    k ∈ ((options.filter fun kv => kv.2).map Prod.fst) ↔ (k, true) ∈ options := by
  simp only [List.mem_map, List.mem_filter]
  constructor
  · rintro ⟨⟨k', b⟩, ⟨hmem, hb⟩, rfl⟩
    simpa [show b = true from hb] using hmem
  · intro h; exact ⟨(k, true), ⟨h, rfl⟩, rfl⟩

/-- Membership in `wrong_keys`. -/
theorem mem_wrong_keys {options : List (String × Bool)} {k : String} :
    k ∈ ((options.filter fun kv => !kv.2).map Prod.fst) ↔ (k, false) ∈ options := by
  simp only [List.mem_map, List.mem_filter]
  constructor
  · rintro ⟨⟨k', b⟩, ⟨hmem, hb⟩, rfl⟩
    simpa [show b = false by revert hb; cases b <;> simp] using hmem
  · intro h; exact ⟨(k, false), ⟨h, rfl⟩, rfl⟩

/-- `List.lookup` on a list whose values are a function of the key. -/
theorem lookup_map_fst {β : Type} (g : String → β) :
    ∀ (options : List (String × Bool)) (k : String) (b : Bool), (k, b) ∈ options →
      (options.map fun kv => (kv.1, g kv.1)).lookup k = some (g k) := by
  intro options
  induction options with
  | nil => intro k b h; cases h
  | cons kv rest ih =>
    intro k b h
    rcases hk : k == kv.1 with _ | _
    · have hm : (k, b) ∈ rest := by
        rcases List.mem_cons.mp h with e | m
        · exact absurd (congrArg Prod.fst e) (ne_of_beq_false hk)
        · exact m
      simpa [List.lookup, hk] using ih k b hm
    · have hkk : k = kv.1 := eq_of_beq hk
      simp [List.lookup, hk, hkk]

/-- Membership in `l.take 1` is being the head. -/
theorem mem_take_one {l : List String} {k : String} :
    k ∈ l.take 1 ↔ l.head? = some k := by
  cases l <;> simp [List.take, eq_comm]

/-- In `multi` mode a correct option receives `fmt6 100 C`. -/
theorem fraction_value_multi_true {options : List (String × Bool)}
    (hnd : (options.map Prod.fst).Nodup) {k : String} (h : (k, true) ∈ options) :
    fraction_value options false k = fmt6 100 (options.filter fun kv => kv.2).length := by
  have hck : k ∈ ((options.filter fun kv => kv.2).map Prod.fst) := mem_correct_keys.mpr h
  have hwk : k ∉ ((options.filter fun kv => !kv.2).map Prod.fst) := by
    intro hw
    exact absurd (nodup_keys_val hnd h (mem_wrong_keys.mp hw)) (by simp)
  have hC : 0 < ((options.filter fun kv => kv.2).map Prod.fst).length :=
    List.length_pos_of_mem hck
  unfold fraction_value
  rw [if_neg Bool.false_ne_true, if_neg (fun hc => hwk hc.2), if_pos ⟨hC, hck⟩,
    List.length_map]

/-- In `multi` mode an incorrect option receives `fmt6 (-100) W` (the
source assigns the wrong-side share last, so no key-uniqueness hypothesis
is needed here). -/
theorem fraction_value_multi_false {options : List (String × Bool)}
    {k : String} (h : (k, false) ∈ options) :
    fraction_value options false k = fmt6 (-100) (options.filter fun kv => !kv.2).length := by
  have hwk : k ∈ ((options.filter fun kv => !kv.2).map Prod.fst) := mem_wrong_keys.mpr h
  have hW : 0 < ((options.filter fun kv => !kv.2).map Prod.fst).length :=
    List.length_pos_of_mem hwk
  unfold fraction_value
  rw [if_neg Bool.false_ne_true, if_pos ⟨hW, hwk⟩, List.length_map]

/-- The fraction list maps every option key through `fraction_value`. -/
theorem lookup_fractions {options : List (String × Bool)} {k : String} {b : Bool}
    (single : Bool) (h : (k, b) ∈ options) :
    (fractions_from_options options single).lookup k
      = some (fraction_value options single k) :=
  lookup_map_fst (fraction_value options single) options k b h

/--
C1: in Moodle `multi` mode with `C` correct and `W` incorrect options, every
correct option receives the string `fmt6 100 C` (the rendering of `100 / C`
to six decimal places), every incorrect option receives `fmt6 (-100) W`
(with no positive shares when `C = 0` and no negative shares when `W = 0`,
vacuously, since no option of that polarity exists), and for `C > 0`,
`W > 0` the `C` positive micro-unit values sum to `100 · 10⁶` and the `W`
negative ones to `-100 · 10⁶`, each within half a micro-unit per option
(the 6-decimal rounding slack).
-/
theorem moodle_multi_fraction_scheme (options : List (String × Bool))
    (hnd : (options.map Prod.fst).Nodup) :
    (∀ k, (k, true) ∈ options →
      (fractions_from_options options false).lookup k
        = some (fmt6 100 (options.filter fun kv => kv.2).length)) ∧
    (∀ k, (k, false) ∈ options →
      (fractions_from_options options false).lookup k
        = some (fmt6 (-100) (options.filter fun kv => !kv.2).length)) ∧
    (0 < (options.filter fun kv => kv.2).length →
      2 * (((options.filter fun kv => kv.2).length : ℤ)
            * rheDiv (100 * 1000000) (options.filter fun kv => kv.2).length
            - 100 * 1000000).natAbs
        ≤ (options.filter fun kv => kv.2).length) ∧
    (0 < (options.filter fun kv => !kv.2).length →
      2 * (((options.filter fun kv => !kv.2).length : ℤ)
            * rheDiv ((-100) * 1000000) (options.filter fun kv => !kv.2).length
            + 100 * 1000000).natAbs
        ≤ (options.filter fun kv => !kv.2).length) := by
  refine ⟨fun k h => ?_, fun k h => ?_, fun hC => ?_, fun hW => ?_⟩
  · rw [lookup_fractions false h, fraction_value_multi_true hnd h]
  · rw [lookup_fractions false h, fraction_value_multi_false h]
  · exact rheDiv_mul_close (100 * 1000000) _ hC
  · have h := rheDiv_mul_close ((-100) * 1000000) _ hW
    have e : ∀ x : ℤ, x - (-100) * 1000000 = x + 100 * 1000000 := fun x => by ring
    rw [e] at h
    exact h

/-- Witness for C1 on scenario B of the spec (two correct, two incorrect
options): the shares are `50.000000` and `-50.000000`. -/
theorem moodle_multi_fraction_scheme_witness :
    (([("2", true), ("3", true), ("4", false), ("9", false)].map
        (Prod.fst (α := String) (β := Bool))).Nodup) ∧
    (fractions_from_options [("2", true), ("3", true), ("4", false), ("9", false)] false).lookup "2"
      = some "50.000000" ∧
    (fractions_from_options [("2", true), ("3", true), ("4", false), ("9", false)] false).lookup "4"
      = some "-50.000000" := by
  refine ⟨by decide, ?_, ?_⟩
  · exact ((moodle_multi_fraction_scheme _ (by decide)).1 "2" (by decide)).trans (by decide)
  · exact ((moodle_multi_fraction_scheme _ (by decide)).2.1 "4" (by decide)).trans (by decide)

/-- In `single` mode exactly the head of `correct_keys` receives
`100.000000`; every other key receives `0`. -/
theorem fraction_value_single (options : List (String × Bool)) (k : String) :
    fraction_value options true k
      = if ((options.filter fun kv => kv.2).map Prod.fst).head? = some k
        then "100.000000" else "0" := by
  unfold fraction_value
  rw [if_pos rfl]
  by_cases h : ((options.filter fun kv => kv.2).map Prod.fst).head? = some k
  · rw [if_pos (mem_take_one.mpr h), if_pos h]
  · rw [if_neg (fun hm => h (mem_take_one.mp hm)), if_neg h]

/-- The `<single>` scalar of the Moodle question node renders the computed
mode. -/
theorem mc_scalar_single (idx : Nat) (q : Question) (name_pref dg pen : String)
    (shuf : Bool) (ann : String) (single strip conv : Bool) :
    (mc_question_node idx q name_pref dg pen shuf ann single strip conv).scalar "single"
      = some (if single then "true" else "false") := rfl

/-- Filtering the answer nodes and reading their `fraction` attributes
recovers the per-key lookups into the fraction list. -/
theorem filter_answer_nodes (fr : List (String × String)) (us uc : Bool) :
    ∀ l : List (String × Bool),
      ((l.map (mc_answer_node fr us uc)).filter
          (fun c => c.tag == "answer")).filterMap (fun c => c.attr "fraction")
        = l.map fun kv => (fr.lookup kv.1).getD "" := by
  intro l
  induction l with
  | nil => rfl
  | cons kv rest ih =>
    simp only [List.map_cons, List.filter_cons, List.filterMap_cons]
    exact congrArg (List.cons _) ih

/-- The fraction attributes of the built Moodle question node are exactly
the values of `fractions_from_options`, in option order. -/
theorem mc_answer_fractions (idx : Nat) (q : Question) (name_pref dg pen : String)
    (shuf : Bool) (ann : String) (single strip conv : Bool) :
    answer_fraction_attrs (mc_question_node idx q name_pref dg pen shuf ann single strip conv)
      = (fractions_from_options q.options single).map Prod.snd := by
  have hfix : (mc_scalar_children idx q name_pref dg pen shuf ann single conv).filter
      (fun c => c.tag == "answer") = [] := rfl
  have h1 : answer_fraction_attrs
        (mc_question_node idx q name_pref dg pen shuf ann single strip conv)
      = q.options.map fun kv =>
          (((fractions_from_options q.options single).lookup kv.1).getD "") := by
    unfold answer_fraction_attrs mc_question_node Xml.elems
    rw [show (Xml.node "question" [("type", "multichoice")] none
        (mc_scalar_children idx q name_pref dg pen shuf ann single conv ++
         q.options.map (mc_answer_node (fractions_from_options q.options single)
           strip conv))).children
      = mc_scalar_children idx q name_pref dg pen shuf ann single conv ++
         q.options.map (mc_answer_node (fractions_from_options q.options single)
           strip conv) from rfl]
    rw [List.filter_append, hfix, List.nil_append, filter_answer_nodes]
  rw [h1]
  have h2 : ∀ kv ∈ q.options,
      (((fractions_from_options q.options single).lookup kv.1).getD "")
        = fraction_value q.options single kv.1 := by
    intro kv hkv
    have hm : (kv.1, kv.2) ∈ q.options := by simpa using hkv
    rw [lookup_fractions single hm]
    rfl
  calc q.options.map
        (fun kv => (((fractions_from_options q.options single).lookup kv.1).getD ""))
      = q.options.map (fun kv => fraction_value q.options single kv.1) :=
        List.map_congr_left h2
    _ = (fractions_from_options q.options single).map Prod.snd := by
        rw [show fractions_from_options q.options single
            = q.options.map (fun kv => (kv.1, fraction_value q.options single kv.1))
          from rfl, List.map_map]
        rfl

/--
C2: with auto-detect enabled and exactly one correct option, the Moodle
builder succeeds, emits `<single>true</single>`, and the answer fractions
follow the `single` scheme; in `single` mode the first correct option (the
head of `correct_keys`, in options iteration order) receives `100.000000`
and every other option `0`; with zero correct options every option
receives `0`.
-/
theorem moodle_auto_single_mode (idx : Nat) (q : Question)
    (name_pref dg pen : String) (shuf : Bool) (ann : String) (strip conv : Bool) :
    ((q.options.filter fun kv => kv.2).length = 1 →
      build_multichoice idx q name_pref dg pen shuf ann true strip conv
        = .ok (mc_question_node idx q name_pref dg pen shuf ann true strip conv) ∧
      (mc_question_node idx q name_pref dg pen shuf ann true strip conv).scalar "single"
        = some "true" ∧
      answer_fraction_attrs
          (mc_question_node idx q name_pref dg pen shuf ann true strip conv)
        = (fractions_from_options q.options true).map Prod.snd) ∧
    (∀ k, ((q.options.filter fun kv => kv.2).map Prod.fst).head? = some k →
      fraction_value q.options true k = "100.000000") ∧
    (∀ k, ((q.options.filter fun kv => kv.2).map Prod.fst).head? ≠ some k →
      fraction_value q.options true k = "0") ∧
    ((q.options.filter fun kv => kv.2).length = 0 →
      ∀ k, fraction_value q.options true k = "0") := by
  refine ⟨fun h1 => ⟨?_, ?_, mc_answer_fractions ..⟩, fun k hk => ?_, fun k hk => ?_,
    fun h0 k => ?_⟩
  · have hne : q.options.isEmpty = false := by
      cases hq : q.options with
      | nil => rw [hq] at h1; simp at h1
      | cons a l => rfl
    simp [build_multichoice, hne, h1]
  · exact (mc_scalar_single ..).trans rfl
  · rw [fraction_value_single, if_pos hk]
  · rw [fraction_value_single, if_neg hk]
  · have he : (q.options.filter fun kv => kv.2) = [] := List.length_eq_zero.mp h0
    rw [fraction_value_single, he]
    rfl

/-- Witness for C2 at scenario A-like inputs: one correct option among two,
and a zero-correct question. -/
theorem moodle_auto_single_mode_witness :
    (((Question.mk "Q" [("a", false), ("b", true)] "" "").options.filter
        fun kv => kv.2).length = 1) ∧
    build_multichoice 1 (Question.mk "Q" [("a", false), ("b", true)] "" "")
        "N" "1" "0.3333333" true "abc" true true false
      = .ok (mc_question_node 1 (Question.mk "Q" [("a", false), ("b", true)] "" "")
        "N" "1" "0.3333333" true "abc" true true false) ∧
    (mc_question_node 1 (Question.mk "Q" [("a", false), ("b", true)] "" "")
        "N" "1" "0.3333333" true "abc" true true false).scalar "single" = some "true" ∧
    answer_fraction_attrs (mc_question_node 1
        (Question.mk "Q" [("a", false), ("b", true)] "" "")
        "N" "1" "0.3333333" true "abc" true true false) = ["0", "100.000000"] ∧
    fraction_value [("a", false)] true "a" = "0" := by
  have h := moodle_auto_single_mode 1 (Question.mk "Q" [("a", false), ("b", true)] "" "")
    "N" "1" "0.3333333" true "abc" true false
  refine ⟨by decide, (h.1 (by decide)).1, (h.1 (by decide)).2.1,
    ((h.1 (by decide)).2.2).trans (by decide), ?_⟩
  exact (moodle_auto_single_mode 1 (Question.mk "Q" [("a", false)] "" "")
    "N" "1" "0.3333333" true "abc" true false).2.2.2 (by decide) "a"

/--
C10: with the auto-detect flag disabled the Moodle builder always uses
`multi` mode — `<single>` is `false` and the fractions follow
`fractions_from_options options false` — no matter how many options are
correct, including a question with exactly one correct option.
-/
theorem moodle_no_auto_always_multi (idx : Nat) (q : Question)
    (name_pref dg pen : String) (shuf : Bool) (ann : String) (strip conv : Bool)
    (hne : q.options ≠ []) :
    build_multichoice idx q name_pref dg pen shuf ann false strip conv
      = .ok (mc_question_node idx q name_pref dg pen shuf ann false strip conv) ∧
    (mc_question_node idx q name_pref dg pen shuf ann false strip conv).scalar "single"
      = some "false" ∧
    answer_fraction_attrs
        (mc_question_node idx q name_pref dg pen shuf ann false strip conv)
      = (fractions_from_options q.options false).map Prod.snd := by
  have hie : q.options.isEmpty = false := by
    cases hq : q.options with
    | nil => exact absurd hq hne
    | cons a l => rfl
  refine ⟨?_, (mc_scalar_single ..).trans rfl, mc_answer_fractions ..⟩
  simp [build_multichoice, hie]

/-- Witness for C10 at a question with exactly one correct option: the mode
is still `multi` and the fractions are the zero-sum shares, not `100/0`. -/
theorem moodle_no_auto_always_multi_witness :
    ((Question.mk "Q" [("a", false), ("b", true)] "" "").options ≠ []) ∧
    (mc_question_node 1 (Question.mk "Q" [("a", false), ("b", true)] "" "")
        "N" "1" "0.3333333" true "abc" false true false).scalar "single" = some "false" ∧
    answer_fraction_attrs (mc_question_node 1
        (Question.mk "Q" [("a", false), ("b", true)] "" "")
        "N" "1" "0.3333333" true "abc" false true false) = ["-100.000000", "100.000000"] := by
  have h := moodle_no_auto_always_multi 1
    (Question.mk "Q" [("a", false), ("b", true)] "" "")
    "N" "1" "0.3333333" true "abc" true false (by decide)
  exact ⟨by decide, h.2.1, h.2.2.trans (by decide)⟩

/--
C7: for every input, the `responseProcessing` children of the built QTI
item consist of exactly the five-step tree of §4.3 of the spec (four
`responseCondition` elements, the second carrying both the exact-match
`responseIf` and its `responseElse`), with the success- and error-feedback
identifiers routed into `FEEDBACKMODAL`.
-/
theorem qti_response_processing_five_steps (item_uuid fb_ok_uuid fb_err_uuid : String)
    (title stem : String) (choices : List (String × String))
    (correct_ids : List String) (success_text error_text : String) (shuffle : Bool) :
    ((make_item_xml item_uuid fb_ok_uuid fb_err_uuid title stem choices correct_ids
        success_text error_text shuffle).2).elems "responseProcessing"
      = [response_processing_spec ("id-" ++ fb_ok_uuid) ("id-" ++ fb_err_uuid)] := rfl

/-- `filterMap` after `map` when the extraction always succeeds. -/
theorem filterMap_map_some {α γ : Type} (g : α → Xml) (f : Xml → Option γ)
    (e : α → γ) (h : ∀ a, f (g a) = some (e a)) :
    ∀ l : List α, (l.map g).filterMap f = l.map e := by
  intro l
  induction l with
  | nil => rfl
  | cons a t ih => rw [List.map_cons, List.filterMap_cons, h a, List.map_cons, ih]

/-- Zipping identifiers with flags and keeping the flagged ones preserves
the flagged count. -/
theorem zip_filter_true_len :
    ∀ (ids : List String) (bs : List Bool), ids.length = bs.length →
      ((((ids.zip bs).filter fun p => p.2).map Prod.fst)).length
        = (bs.filter id).length := by
  intro ids
  induction ids with
  | nil =>
    intro bs h
    cases bs with
    | nil => rfl
    | cons b bt => simp at h
  | cons i it ih =>
    intro bs h
    cases bs with
    | nil => simp at h
    | cons b bt =>
      have h' : it.length = bt.length := by simpa using h
      cases b
      · simpa using ih bt h'
      · simpa using ih bt h'

/-- C3 length part: the correct-identifier list has one entry per `true`
option. -/
theorem qti_correct_ids_length (options : List (String × Bool)) :
    (qti_correct_ids options).length = (options.filter fun kv => kv.2).length := by
  unfold qti_correct_ids
  rw [zip_filter_true_len _ _ (by simp [choice_ids]), List.filter_map,
    List.length_map]
  rfl

/-- C3 soundness part: every emitted identifier points back, through its
index, at an option flagged `true`. -/
theorem qti_correct_ids_sound (options : List (String × Bool)) :
    ∀ cid ∈ qti_correct_ids options, ∃ i, ∃ h : i < options.length,
      cid = "ID_" ++ Nat.repr (i + 1) ∧ (options.get ⟨i, h⟩).2 = true := by
  intro cid hcid
  unfold qti_correct_ids at hcid
  obtain ⟨p, hp, hfst⟩ := List.mem_map.mp hcid
  obtain ⟨hpz, hp2⟩ := List.mem_filter.mp hp
  obtain ⟨⟨i, hlt⟩, hget⟩ := List.mem_iff_get.mp hpz
  have hzl : ((choice_ids options.length).zip (options.map Prod.snd)).length
      = options.length := by simp [choice_ids]
  have hi : i < options.length := hzl ▸ hlt
  refine ⟨i, hi, ?_, ?_⟩
  · have : p.1 = "ID_" ++ Nat.repr (i + 1) := by
      rw [← hget, List.get_eq_getElem, List.getElem_zip]
      simp [choice_ids]
    rw [← hfst, this]
  · have : p.2 = (options.get ⟨i, hi⟩).2 := by
      rw [← hget, List.get_eq_getElem, List.getElem_zip]
      simp [List.get_eq_getElem]
    rw [← this]
    exact hp2

/-- The `correctResponse` values of a built item are exactly
`qti_correct_ids` of the question's options. -/
theorem qti_item_correct_response (uuids : String × String × String)
    (item_pref : String) (idx : Nat) (strip conv shuf : Bool) (q : Question) :
    correct_response_values ((qti_build_item uuids item_pref idx strip conv shuf q).2)
      = qti_correct_ids q.options := by
  have h0 : correct_response_values
        ((qti_build_item uuids item_pref idx strip conv shuf q).2)
      = (((qti_correct_ids q.options).map
          fun cid => Xml.node "value" [] (some cid) []) ++ []).filterMap Xml.text := rfl
  rw [List.append_nil] at h0
  rw [h0, filterMap_map_some (fun cid => Xml.node "value" [] (some cid) [])
    Xml.text (fun cid => cid) (fun a => rfl)]
  exact List.map_id' _

/--
C3: the QTI correct-response value list of every built item is exactly the
generated choice identifiers, in options iteration order, of the options
flagged `true`; its length equals the number of `true` entries, and every
identifier in it is `ID_(i+1)` for an index `i` whose option is flagged
`true`.
-/
theorem qti_correct_response_set (uuids : String × String × String)
    (item_pref : String) (idx : Nat) (strip conv shuf : Bool) (q : Question) :
    correct_response_values ((qti_build_item uuids item_pref idx strip conv shuf q).2)
      = qti_correct_ids q.options ∧
    (qti_correct_ids q.options).length = (q.options.filter fun kv => kv.2).length ∧
    ∀ cid ∈ qti_correct_ids q.options, ∃ i, ∃ h : i < q.options.length,
      cid = "ID_" ++ Nat.repr (i + 1) ∧ (q.options.get ⟨i, h⟩).2 = true :=
  ⟨qti_item_correct_response uuids item_pref idx strip conv shuf q,
   qti_correct_ids_length q.options, qti_correct_ids_sound q.options⟩

/-- The manifest's resource `href` list is the file-name list it was built
from. -/
theorem resource_hrefs_manifest (fns : List String) :
    resource_hrefs (make_manifest_xml fns) = fns := by
  have h0 : resource_hrefs (make_manifest_xml fns)
      = ((fns.map fun fname => Xml.node "resource"
          [("identifier", manifest_rid fname), ("type", "imsqti_item_xmlv2p1"),
           ("href", fname)] none
          [Xml.node "file" [("href", fname)] none []]) ++ []).filterMap
          (fun r : Xml => r.attr "href") := rfl
  rw [List.append_nil] at h0
  rw [h0, filterMap_map_some
    (fun fname => Xml.node "resource"
      [("identifier", manifest_rid fname), ("type", "imsqti_item_xmlv2p1"),
       ("href", fname)] none [Xml.node "file" [("href", fname)] none []])
    (fun r : Xml => r.attr "href") (fun f => f) (fun a => rfl)]
  exact List.map_id' _

/--
C8: the manifest declares exactly one `imsqti_item_xmlv2p1` resource per
item file, carrying a matching `<file>` reference and the resource
identifier `manifest_rid` derived deterministically from the file name; the
zip entry names are the item file names plus `imsmanifest.xml`; the final
entry is the manifest built from exactly those item file names; and every
resource `href` names an entry actually present in the archive.
-/
theorem qti_manifest_consistency (uuidGen : Nat → String × String × String)
    (strip conv shuf : Bool) (item_pref : String) (items : List Question) :
    (∀ fns : List String, (make_manifest_xml fns).elems "resources"
      = [Xml.node "resources" [] none (fns.map fun fname =>
          Xml.node "resource"
            [("identifier", manifest_rid fname), ("type", "imsqti_item_xmlv2p1"),
             ("href", fname)] none
            [Xml.node "file" [("href", fname)] none []])]) ∧
    ((json_to_qti_zip uuidGen strip conv shuf item_pref items).map Prod.fst
      = (items.enum.map fun p => "item-" ++ (uuidGen p.1).1 ++ ".xml")
        ++ ["imsmanifest.xml"]) ∧
    ((json_to_qti_zip uuidGen strip conv shuf item_pref items).getLast?
      = some ("imsmanifest.xml", make_manifest_xml
          (items.enum.map fun p => "item-" ++ (uuidGen p.1).1 ++ ".xml"))) ∧
    (∀ f ∈ resource_hrefs (make_manifest_xml
        (items.enum.map fun p => "item-" ++ (uuidGen p.1).1 ++ ".xml")),
      f ∈ (json_to_qti_zip uuidGen strip conv shuf item_pref items).map Prod.fst) := by
  have h2 : (json_to_qti_zip uuidGen strip conv shuf item_pref items).map Prod.fst
      = (items.enum.map fun p => "item-" ++ (uuidGen p.1).1 ++ ".xml")
        ++ ["imsmanifest.xml"] := by
    simp only [json_to_qti_zip, List.map_append, List.map_map, List.map_cons,
      List.map_nil]
    rfl
  refine ⟨fun fns => rfl, h2, ?_, ?_⟩
  · simp only [json_to_qti_zip]
    rw [List.getLast?_concat, List.map_map]
    rfl
  · intro f hf
    rw [resource_hrefs_manifest] at hf
    rw [h2]
    exact List.mem_append_left _ hf

/-- The `simpleChoice` identifiers of a built item are `choice_ids n` for
`n` the option count. -/
theorem simple_choice_ids_build (uuids : String × String × String)
    (item_pref : String) (idx : Nat) (strip conv shuf : Bool) (q : Question) :
    simple_choice_identifiers ((qti_build_item uuids item_pref idx strip conv shuf q).2)
      = choice_ids q.options.length := by
  have h0 : simple_choice_identifiers
        ((qti_build_item uuids item_pref idx strip conv shuf q).2)
      = ((((choice_ids (q.options.map Prod.fst).length).zip
          ((q.options.map Prod.fst).map
            fun txt => clean_option_text txt strip conv)).map
          fun c : String × String => Xml.node "simpleChoice" [("identifier", c.1)] none
            [Xml.node "p" [] (some c.2) []]) ++ []).filterMap
          (fun c : Xml => c.attr "identifier") := rfl
  rw [List.append_nil] at h0
  rw [h0, filterMap_map_some
    (fun c : String × String => Xml.node "simpleChoice" [("identifier", c.1)] none
      [Xml.node "p" [] (some c.2) []])
    (fun c : Xml => c.attr "identifier") Prod.fst (fun a => rfl),
    List.map_fst_zip _ _ (by simp [choice_ids]), List.length_map]

/--
C9 amended: each option's choice identifier is assigned in options
iteration order — the built item's `simpleChoice` identifiers are
`ID_1 … ID_n` where `n` is the option count — and the identifier sequence
depends only on that count, so it is scoped to the item file but the same
identifier strings recur in every question: two questions with equally many
options receive identical identifier lists.
-/
theorem choice_ids_iteration_order :
    (∀ (uuids : String × String × String) (item_pref : String) (idx : Nat)
        (strip conv shuf : Bool) (q : Question),
      simple_choice_identifiers ((qti_build_item uuids item_pref idx strip conv shuf q).2)
        = choice_ids q.options.length) ∧
    (∀ n : Nat, choice_ids n = (List.range n).map fun i => "ID_" ++ Nat.repr (i + 1)) ∧
    (∀ (u1 u2 : String × String × String) (p1 p2 : String) (i1 i2 : Nat)
        (s1 s2 c1 c2 h1 h2 : Bool) (q1 q2 : Question),
      q1.options.length = q2.options.length →
      simple_choice_identifiers ((qti_build_item u1 p1 i1 s1 c1 h1 q1).2)
        = simple_choice_identifiers ((qti_build_item u2 p2 i2 s2 c2 h2 q2).2)) := by
  refine ⟨simple_choice_ids_build, fun n => rfl, ?_⟩
  intro u1 u2 p1 p2 i1 i2 s1 s2 c1 c2 h1 h2 q1 q2 hlen
  rw [simple_choice_ids_build, simple_choice_ids_build, hlen]

/-- Witness for the amended C9: two distinct one-option questions receive
the same identifier list. -/
theorem choice_ids_iteration_order_witness :
    ((Question.mk "A?" [("x", true)] "" "").options.length
      = (Question.mk "B?" [("y", false)] "" "").options.length) ∧
    simple_choice_identifiers ((qti_build_item ("u", "v", "w") "Item" 1 true true true
        (Question.mk "A?" [("x", true)] "" "")).2)
      = simple_choice_identifiers ((qti_build_item ("a", "b", "c") "Item" 2 true true true
        (Question.mk "B?" [("y", false)] "" "")).2) :=
  ⟨by decide, choice_ids_iteration_order.2.2 _ _ _ _ _ _ _ _ _ _ _ _ _ _ (by decide)⟩

/-- C9 counterexample: in a concrete two-question package, the first option
of question 1 and the first option of question 2 both receive the choice
identifier `ID_1` — two options belonging to different questions share a
choice identifier, refuting "never reused across questions". -/
theorem choice_ids_shared_across_questions :
    (json_to_qti_zip (fun i => ("u" ++ Nat.repr i, "v", "w")) true true true "Item"
        [Question.mk "A?" [("x", true)] "" "", Question.mk "B?" [("y", false)] "" ""]).map
      (fun e => simple_choice_identifiers e.2)
    = [["ID_1"], ["ID_1"], []] := by decide

/--
C4 amended: a question with an empty options map is rejected by the Moodle
builder (`ValueError` with the "must be a non-empty dict" message), so a
quiz containing it produces no Moodle XML; the QTI path performs no such
check and still produces an item entry (plus the manifest) for the
question.
-/
theorem empty_options_moodle_error_qti_built (idx : Nat) (q : Question)
    (name_pref dg pen : String) (shuf : Bool) (ann : String)
    (auto strip conv : Bool) (uuidGen : Nat → String × String × String)
    (item_pref : String) (s c sh : Bool) (h : q.options = []) :
    build_multichoice idx q name_pref dg pen shuf ann auto strip conv
      = .error ("Question " ++ Nat.repr idx
          ++ ": \x27options\x27 must be a non-empty dict.") ∧
    build_quiz_xml name_pref dg pen shuf ann auto strip conv [q]
      = .error ("Question 1: \x27options\x27 must be a non-empty dict.") ∧
    (json_to_qti_zip uuidGen s c sh item_pref [q]).map Prod.fst
      = ["item-" ++ (uuidGen 0).1 ++ ".xml", "imsmanifest.xml"] := by
  obtain ⟨qq, qo, qs, qe⟩ := q
  have ho : qo = [] := h
  subst ho
  exact ⟨rfl, rfl, rfl⟩

/-- Witness for the amended C4. -/
theorem empty_options_moodle_error_qti_built_witness :
    (Question.mk "Q?" [] "" "").options = [] ∧
    build_multichoice 2 (Question.mk "Q?" [] "" "") "P" "1" "0.5" true "abc" true true false
      = .error "Question 2: \x27options\x27 must be a non-empty dict." ∧
    build_quiz_xml "P" "1" "0.5" true "abc" true true false [Question.mk "Q?" [] "" ""]
      = .error "Question 1: \x27options\x27 must be a non-empty dict." ∧
    (json_to_qti_zip (fun i => ("u" ++ Nat.repr i, "v", "w")) true true true "Item"
        [Question.mk "Q?" [] "" ""]).map Prod.fst
      = ["item-u0.xml", "imsmanifest.xml"] := by
  have h := empty_options_moodle_error_qti_built 2 (Question.mk "Q?" [] "" "")
    "P" "1" "0.5" true "abc" true true false (fun i => ("u" ++ Nat.repr i, "v", "w"))
    "Item" true true true rfl
  exact ⟨rfl, h.1, h.2.1, h.2.2.trans (by decide)⟩

/-- C4 counterexample: the claim says no QTI output is produced for a
question with an empty options map, but the QTI pipeline emits an item file
for exactly that question. -/
theorem empty_options_qti_output_exists :
    "item-u1.xml" ∈ (json_to_qti_zip (fun _ => ("u1", "u2", "u3")) true true true "Item"
        [Question.mk "Q?" [] "" ""]).map Prod.fst := by decide

/-- `subMathAux` on the empty list. -/
theorem subMathAux_nil : ∀ fuel, subMathAux fuel [] = [] := by
  intro fuel
  cases fuel <;> rfl

/-- `findClose` on a dollar-free, newline-free segment followed by a
closing dollar finds exactly that segment. -/
theorem findClose_safe :
    ∀ (x acc : List Char), x ≠ [] → (∀ c ∈ x, c ≠ '$' ∧ c ≠ '\n') →
      findClose acc (x ++ ['$']) = some (acc.reverse ++ x, []) := by
  intro x
  induction x with
  | nil => intro acc h _; exact absurd rfl h
  | cons c cs ih =>
    intro acc _ hsafe
    have hc : c ≠ '$' ∧ c ≠ '\n' := hsafe c (List.mem_cons_self ..)
    rw [List.cons_append]
    simp only [findClose]
    rw [if_neg (by simp [hc.1]), if_neg hc.2]
    cases cs with
    | nil =>
      show findClose (c :: acc) (([] : List Char) ++ ['$'])
        = some (acc.reverse ++ [c], [])
      rw [List.nil_append]
      show some ((c :: acc).reverse, ([] : List Char)) = some (acc.reverse ++ [c], [])
      rw [List.reverse_cons]
    | cons d ds =>
      have hrec := ih (c :: acc) (by simp)
        (fun e he => hsafe e (List.mem_cons_of_mem c he))
      rw [hrec, List.reverse_cons, List.append_assoc]
      rfl

/--
C5 amended: the transform rewrites a single-delimited inline segment
`$x$` (for `x` nonempty and free of dollars and newlines) into `$$x$$`; it
does NOT leave `$$...$$` untouched and is not idempotent: because the
pattern checks only the character following a delimiter, `$$x$$` contains
the match `$x$$` starting at its second character, and applying the
transform to `$$x$$` yields `$$$x$$$`.
-/
theorem subMath_wraps (xd : List Char) (h1 : xd ≠ [])
    (h2 : ∀ c ∈ xd, c ≠ '$' ∧ c ≠ '\n') (fuel : Nat) :
    subMathAux (fuel + 1) ('$' :: (xd ++ ['$'])) = '$' :: '$' :: (xd ++ ['$', '$']) := by
  obtain ⟨d, ds, rfl⟩ : ∃ d ds, xd = d :: ds := by
    cases xd with
    | nil => exact absurd rfl h1
    | cons a l => exact ⟨a, l, rfl⟩
  have hd : (d != '$') = true := by
    simp [(h2 d (List.mem_cons_self ..)).1]
  have hfc : findClose [] ((d :: ds) ++ ['$']) = some (d :: ds, []) := by
    simpa using findClose_safe (d :: ds) [] (by simp) h2
  have hnd : noDollarAhead (d :: (ds ++ ['$'])) = true := by
    simpa [noDollarAhead] using hd
  simp only [subMathAux]
  rw [if_pos (by simp [hnd]), hfc]
  show '$' :: '$' :: ((d :: ds) ++ '$' :: '$' :: subMathAux fuel [])
    = '$' :: '$' :: ((d :: ds) ++ ['$', '$'])
  rw [subMathAux_nil]

/--
C5 amended: the transform rewrites a single-delimited inline segment
`$x$` (for `x` nonempty and free of dollars and newlines) into `$$x$$`; it
does NOT leave `$$...$$` untouched and is not idempotent: because the
pattern checks only the character following a delimiter, `$$x$$` contains
the match `$x$$` starting at its second character, and applying the
transform to `$$x$$` yields `$$$x$$$`.
-/
theorem to_double_dollar_math_amended (x : String) (h1 : x.data ≠ [])
    (h2 : ∀ c ∈ x.data, c ≠ '$' ∧ c ≠ '\n') :
    to_double_dollar_math ("$" ++ x ++ "$") = "$$" ++ x ++ "$$" ∧
    to_double_dollar_math "$$x$$" = "$$$x$$$" := by
  refine ⟨?_, by decide⟩
  apply String.ext
  have hdata : ("$" ++ x ++ "$").data = '$' :: (x.data ++ ['$']) := by simp
  have hlen : ("$" ++ x ++ "$").data.length = (x.data.length + 1) + 1 := by
    rw [hdata]
    simp
  rw [show to_double_dollar_math ("$" ++ x ++ "$")
      = String.mk (subMathAux ("$" ++ x ++ "$").data.length ("$" ++ x ++ "$").data)
    from rfl]
  rw [hlen, hdata, subMath_wraps x.data h1 h2 (x.data.length + 1)]
  show '$' :: '$' :: (x.data ++ ['$', '$']) = ("$$" ++ x ++ "$$").data
  simp

/-- Witness for the amended C5 at `x = "x"`. -/
theorem to_double_dollar_math_amended_witness :
    (("x" : String).data ≠ [] ∧ ∀ c ∈ ("x" : String).data, c ≠ '$' ∧ c ≠ '\n') ∧
    (to_double_dollar_math ("$" ++ "x" ++ "$") = "$$" ++ "x" ++ "$$" ∧
     to_double_dollar_math "$$x$$" = "$$$x$$$") :=
  ⟨⟨by decide, by decide⟩, to_double_dollar_math_amended "x" (by decide) (by decide)⟩

/-- C5 counterexample: applying the transform to `$x$` twice does not yield
`$$x$$` — the second application escalates to `$$$x$$$` — so the transform
is not idempotent and does not leave `$$...$$` unchanged. -/
theorem inline_math_not_idempotent :
    to_double_dollar_math (to_double_dollar_math "$x$") ≠ "$$x$$" := by decide

/-- A successful label match strictly shortens the text: the match consumes
at least one alphanumeric, the punctuation mark and at least one space. -/
theorem label_rest_shorter {s : String} {r : List Char}
    (h : label_rest s = some r) : r.length < s.data.length := by
  have hlen0 : (s.data.dropWhile pyIsSpace).length ≤ s.data.length := by
    conv_rhs => rw [← List.takeWhile_append_dropWhile (p := pyIsSpace) (l := s.data)]
    rw [List.length_append]
    omega
  have hlen1 : ((s.data.dropWhile pyIsSpace).takeWhile isAsciiAlnum).length
      + ((s.data.dropWhile pyIsSpace).dropWhile isAsciiAlnum).length
      = (s.data.dropWhile pyIsSpace).length := by
    rw [← List.length_append, List.takeWhile_append_dropWhile]
  simp only [label_rest] at h
  split at h
  · exact absurd h (by simp)
  · rename_i hne
    split at h
    · exact absurd h (by simp)
    · rename_i p r3 heq
      split at h
      · split at h
        · exact absurd h (by simp)
        · rename_i hws
          injection h with h
          have hr3 : (r3.takeWhile pyIsSpace).length
              + (r3.dropWhile pyIsSpace).length = r3.length := by
            rw [← List.length_append, List.takeWhile_append_dropWhile]
          have htw : 0 < ((s.data.dropWhile pyIsSpace).takeWhile isAsciiAlnum).length := by
            rcases he : (s.data.dropWhile pyIsSpace).takeWhile isAsciiAlnum with _ | _
            · rw [he] at hne
              simp at hne
            · simp
          have hdw : ((s.data.dropWhile pyIsSpace).dropWhile isAsciiAlnum).length
              = r3.length + 1 := by
            rw [heq]
            rfl
          rw [← h]
          omega
      · exact absurd h (by simp)

/-- When the label pattern does not match, the stripper returns its input
unchanged. -/
theorem strip_no_match (s : String) (h : matchesLabel s = false) :
    strip_prefix_label s = s := by
  unfold matchesLabel at h
  cases hl : label_rest s with
  | none => simp [strip_prefix_label, hl]
  | some r => rw [hl] at h; simp at h

/--
C6 amended: one application of the prefix stripper removes at most one
leading label token, so a second application is the identity exactly when
the once-stripped text no longer starts with a label token; in general the
second application strips a further label that the first one exposed
(e.g. `A) 1. x` → `1. x` → `x`), so the transform is not idempotent.
-/
theorem strip_label_twice_iff (s : String) :
    strip_prefix_label (strip_prefix_label s) = strip_prefix_label s
      ↔ matchesLabel (strip_prefix_label s) = false := by
  constructor
  · intro he
    cases hb : matchesLabel (strip_prefix_label s) with
    | false => rfl
    | true =>
      exfalso
      obtain ⟨r, hr⟩ : ∃ r, label_rest (strip_prefix_label s) = some r := by
        unfold matchesLabel at hb
        exact Option.isSome_iff_exists.mp hb
      have hlt : r.length < (strip_prefix_label s).data.length := label_rest_shorter hr
      have hmk : strip_prefix_label (strip_prefix_label s) = String.mk r := by
        show (match label_rest (strip_prefix_label s) with
              | some rr => String.mk rr
              | none => strip_prefix_label s) = String.mk r
        rw [hr]
      rw [hmk] at he
      have hdata : r = (strip_prefix_label s).data := congrArg String.data he
      rw [hdata] at hlt
      exact absurd hlt (lt_irrefl _)
  · intro h
    exact strip_no_match _ h

/-- C6 counterexample: the stripper is not idempotent — on `"A) 1. x"` the
first application yields `"1. x"` and the second strips the newly exposed
label, yielding `"x"`. -/
theorem strip_label_not_idempotent :
    strip_prefix_label (strip_prefix_label "A) 1. x")
      ≠ strip_prefix_label "A) 1. x" := by decide
